import Mathlib

/-!
Shallow embedding of `pacal/standard_distr.py` (standard distribution
families): the per-family stable density evaluators (scalar and vectorized
paths), the precomputed boundary-limit constants, and the segment sequences
with their pole flags, together with theorems checking the specified
properties against this embedding.
-/

open Real Filter MeasureTheory Set Topology

noncomputable section

/-- Result of a Python float computation that can also be the float `inf`
(used for the precomputed `pdf_at_0` sentinels). -/
inductive PyV
  | val : ℝ → PyV
  | inf : PyV

/-- A segment handed to the external piecewise container via `addSegment`:
`minf hi` is `MInfSegment(hi, f)`, `seg lo hi` is `Segment(lo, hi, f)`,
`pinf lo` is `PInfSegment(lo, f)`, `poleL lo hi` is
`SegmentWithPole(lo, hi, f, left_pole=True)`, `poleR lo hi` is
`SegmentWithPole(lo, hi, f, left_pole=False)`, `constSeg lo hi v` is
`ConstSegment(lo, hi, v)` and `dirac x p` is `DiracSegment(x, p)`. -/
inductive Seg
  | minf : ℝ → Seg
  | seg : ℝ → ℝ → Seg
  | pinf : ℝ → Seg
  | poleL : ℝ → ℝ → Seg
  | poleR : ℝ → ℝ → Seg
  | constSeg : ℝ → ℝ → ℝ → Seg
  | dirac : ℝ → ℝ → Seg

/-- Data handed to `PiecewiseDistribution(fun=..., breakPoints=..., lpoles=...)`:
the break points (possibly infinite) and the parallel left-pole booleans. -/
structure BreaksRepr where
  breakPoints : List EReal
  lpoles : List Bool

/-- Number of `true` entries of a numpy boolean mask. -/
def countTrue (mask : List Bool) : ℕ := (mask.filter id).length

/-- Positional assignment `y[mask] = vals` when `vals` has exactly one value
per selected slot: the j-th `true` position receives `vals[j]`. -/
def assignMask {α : Type} : List α → List Bool → List α → List α
  | [], _, _ => []
  | _ :: ys, true :: ms, v :: vs => v :: assignMask ys ms vs
  | y :: ys, true :: ms, [] => y :: assignMask ys ms []
  | y :: ys, false :: ms, vs => y :: assignMask ys ms vs
  | y :: ys, [], _ => y :: ys

/-- Broadcast assignment `y[mask] = v` of a single value to every selected slot. -/
def fillMask {α : Type} (y : List α) (mask : List Bool) (v : α) : List α :=
  List.zipWith (fun yi mi => if mi then v else yi) y mask

/-- numpy semantics of `y[mask] = vals`: elementwise when `len(vals)` equals the
number of selected slots, broadcast when `len(vals) == 1`, and otherwise a
`ValueError` (modelled as `none`). -/
def npSetMask {α : Type} (y : List α) (mask : List Bool) (vals : List α) :
    Option (List α) :=
  if vals.length = countTrue mask then some (assignMask y mask vals)
  else
    match vals with
    | [v] => some (fillMask y mask v)
    | _ => none

/-- Modelled from the spec: `utils.lgamma` (the file `utils.py` is outside this
source slice).  The spec's Distribution Descriptor stores "log-normalizing
constants", and `lgamma` is the standard log-gamma function, here on the
positive reals where all call sites live. -/
def lgamma (x : ℝ) : ℝ := Real.log (Real.Gamma x)

/-- Constructor-time boundary constant of `ChiSquareDistr`: `Inf` if `df == 1`,
`0.5` if `df == 2`, else `0`. -/
def ChiSquareDistr.pdf_at_0 (df : ℝ) : PyV :=
  if df = 1 then PyV.inf else if df = 2 then PyV.val (1 / 2) else PyV.val 0

/-- Model of `ChiSquareDistr.log_pdf`: `(df/2 - 1)*log(x) - x/2 - lg_norm` with
`lg_norm = lgamma(df/2) + (df/2)*log(2)`. -/
def ChiSquareDistr.log_pdf (df x : ℝ) : ℝ :=
  (df / 2 - 1) * Real.log x - x / 2 - (lgamma (df / 2) + df / 2 * Real.log 2)

/-- Scalar path of `ChiSquareDistr.pdf`: `0` for `x < 0`, the precomputed
`pdf_at_0` at `x == 0`, else `exp(log_pdf(x))`. -/
def ChiSquareDistr.pdf (df x : ℝ) : PyV :=
  if x < 0 then PyV.val 0
  else if x = 0 then ChiSquareDistr.pdf_at_0 df
  else PyV.val (Real.exp (ChiSquareDistr.log_pdf df x))

/-- Vectorized path of `ChiSquareDistr.pdf`: `y = zeros_like(x)`,
`y[x > 0] = exp(log_pdf(x[x > 0]))`, `y[x == 0] = pdf_at_0` (scalar broadcast). -/
def ChiSquareDistr.pdf_vec (df : ℝ) (xs : List ℝ) : Option (List PyV) :=
  let y := xs.map fun _ => PyV.val 0
  let mask := xs.map fun x => if 0 < x then true else false
  let vals := ((xs.filter fun x => if 0 < x then true else false).map
    fun x => PyV.val (Real.exp (ChiSquareDistr.log_pdf df x)))
  (npSetMask y mask vals).map fun y1 =>
    fillMask y1 (xs.map fun x => if x = 0 then true else false)
      (ChiSquareDistr.pdf_at_0 df)

/-- Model of `ChiSquareDistr.init_piecewise_pdf`: for `1 <= df <= 20` break points
`[0, df/2, df*2, Inf]` with `lpoles = [True, False, False, False]`; for
`df > 20` break points `[0, 0.75*df, df*4/3, Inf]` with the same flags;
otherwise only a diagnostic is printed and no representation is built
(modelled as `none`). -/
def ChiSquareDistr.init_piecewise_pdf (df : ℝ) : Option BreaksRepr :=
  if 1 ≤ df ∧ df ≤ 20 then
    some ⟨[((0 : ℝ) : EReal), ((df / 2 : ℝ) : EReal), ((df * 2 : ℝ) : EReal), ⊤],
      [true, false, false, false]⟩
  else if 20 < df then
    some ⟨[((0 : ℝ) : EReal), ((df * 0.75 : ℝ) : EReal), ((df * 4 / 3 : ℝ) : EReal), ⊤],
      [true, false, false, false]⟩
  else none

/-- Scalar path of `ExponentialDistr.pdf`: `0` for `x < 0`, else
`lmbda * exp(-lmbda*x)`. -/
def ExponentialDistr.pdf (lmbda x : ℝ) : ℝ :=
  if x < 0 then 0 else lmbda * Real.exp (-lmbda * x)

/-- Vectorized path of `ExponentialDistr.pdf`: `y = zeros_like(x)`,
`y[x >= 0] = lmbda * exp(-lmbda * x)` — note the right-hand side is computed
over the full array `x`, not `x[mask]`. -/
def ExponentialDistr.pdf_vec (lmbda : ℝ) (xs : List ℝ) : Option (List ℝ) :=
  npSetMask (xs.map fun _ => 0) (xs.map fun x => if 0 ≤ x then true else false)
    (xs.map fun x => lmbda * Real.exp (-lmbda * x))

/-- Model of `ExponentialDistr.init_piecewise_pdf`: `Segment(0, 1, pdf)` then
`PInfSegment(1, pdf)`. -/
def ExponentialDistr.init_piecewise_pdf : List Seg := [Seg.seg 0 1, Seg.pinf 1]

/-- Constructor-time boundary constant of `GammaDistr`: `Inf` if `k < 1`,
`1/theta` if `k == 1`, else `0`. -/
def GammaDistr.pdf_at_0 (k theta : ℝ) : PyV :=
  if k < 1 then PyV.inf else if k = 1 then PyV.val (1 / theta) else PyV.val 0

/-- Model of `GammaDistr.log_pdf`: `(k - 1)*log(x) - x/theta - lg_norm` with
`lg_norm = lgamma(k) + k*log(theta)`. -/
def GammaDistr.log_pdf (k theta x : ℝ) : ℝ :=
  (k - 1) * Real.log x - x / theta - (lgamma k + k * Real.log theta)

/-- Scalar path of `GammaDistr.pdf`: `0` for `x < 0`, the precomputed
`pdf_at_0` at `x == 0`, else `exp(log_pdf(x))`. -/
def GammaDistr.pdf (k theta x : ℝ) : PyV :=
  if x < 0 then PyV.val 0
  else if x = 0 then GammaDistr.pdf_at_0 k theta
  else PyV.val (Real.exp (GammaDistr.log_pdf k theta x))

/-- Vectorized path of `GammaDistr.pdf`: `y = zeros_like(x)`,
`y[x > 0] = exp(log_pdf(x[x > 0]))`, `y[x == 0] = pdf_at_0` (scalar broadcast);
unlike `ExponentialDistr`, the right-hand side here is computed over `x[mask]`. -/
def GammaDistr.pdf_vec (k theta : ℝ) (xs : List ℝ) : Option (List PyV) :=
  let y := xs.map fun _ => PyV.val 0
  let mask := xs.map fun x => if 0 < x then true else false
  let vals := ((xs.filter fun x => if 0 < x then true else false).map
    fun x => PyV.val (Real.exp (GammaDistr.log_pdf k theta x)))
  (npSetMask y mask vals).map fun y1 =>
    fillMask y1 (xs.map fun x => if x = 0 then true else false)
      (GammaDistr.pdf_at_0 k theta)

/-- Model of `GammaDistr.init_piecewise_pdf`: for `k < 1` a left-pole segment `[0,1]`
plus the tail; for `k == 1` an ordinary `[0,1]` plus the tail; for `k > 1`
a quartering around the mode `(k-1)*theta`. -/
def GammaDistr.init_piecewise_pdf (k theta : ℝ) : List Seg :=
  if k < 1 then [Seg.poleL 0 1, Seg.pinf 1]
  else if k = 1 then [Seg.seg 0 1, Seg.pinf 1]
  else
    [Seg.seg 0 ((k - 1) * theta / 2), Seg.seg ((k - 1) * theta / 2) ((k - 1) * theta),
      Seg.seg ((k - 1) * theta) (2 * ((k - 1) * theta)), Seg.pinf (2 * ((k - 1) * theta))]

/-- Python-2 float exponentiation `x ** p`: raising `0.0` to a negative power
raises `ZeroDivisionError` (modelled as `none`); otherwise it is real
exponentiation. -/
def pyPow (x p : ℝ) : Option ℝ :=
  if x = 0 ∧ p < 0 then none else some (x ^ p)

/-- Model of the `BetaDistr` normalizing constant
`exp(lgamma(alpha+beta) - lgamma(alpha) - lgamma(beta))`. -/
def BetaDistr.norm (alpha beta : ℝ) : ℝ :=
  Real.exp (lgamma (alpha + beta) - lgamma alpha - lgamma beta)

/-- Scalar path of `BetaDistr.pdf`: `0` outside `[0,1]`, otherwise the direct
closed-form `norm * x**(alpha-1) * (1-x)**(beta-1)` — evaluated also at the
boundaries `x = 0` and `x = 1`, where a shape parameter below `1` makes the
power raise (`none`).  No boundary constant is precomputed for this family. -/
def BetaDistr.pdf (alpha beta x : ℝ) : Option ℝ :=
  if x < 0 ∨ 1 < x then some 0
  else
    (pyPow x (alpha - 1)).bind fun t1 =>
      (pyPow (1 - x) (beta - 1)).map fun t2 => BetaDistr.norm alpha beta * t1 * t2

/-- Model of `NormalDistr.init_piecewise_pdf`: breaks at the inflection points
`mu - sigma` and `mu + sigma`. -/
def NormalDistr.init_piecewise_pdf (mu sigma : ℝ) : List Seg :=
  [Seg.minf (mu - sigma), Seg.seg (mu - sigma) (mu + sigma), Seg.pinf (mu + sigma)]

/-- Model of `CauchyDistr.init_piecewise_pdf`: breaks at `center - gamma` and
`center + gamma`. -/
def CauchyDistr.init_piecewise_pdf (gamma center : ℝ) : List Seg :=
  [Seg.minf (center - gamma), Seg.seg (center - gamma) (center + gamma),
    Seg.pinf (center + gamma)]

/-- Model of `StudentTDistr.init_piecewise_pdf`: breaks at the inflection points
`±sqrt(df/(df+2))`. -/
def StudentTDistr.init_piecewise_pdf (df : ℝ) : List Seg :=
  [Seg.minf (-Real.sqrt (df / (df + 2))),
    Seg.seg (-Real.sqrt (df / (df + 2))) (Real.sqrt (df / (df + 2))),
    Seg.pinf (Real.sqrt (df / (df + 2)))]

/-- Model of `LaplaceDistr.pdf`: `0.5/lmbda * exp(-abs(x - mu))` — note the exponent is
not divided by `lmbda` in the source. -/
def LaplaceDistr.pdf (lmbda mu x : ℝ) : ℝ :=
  0.5 / lmbda * Real.exp (-|x - mu|)

/-- Model of `LaplaceDistr.init_piecewise_pdf`: tail break points at `mu ± 2*lmbda` and
an interior split at the hardcoded point `0`. -/
def LaplaceDistr.init_piecewise_pdf (lmbda mu : ℝ) : List Seg :=
  [Seg.minf (mu - 2 * lmbda), Seg.seg (mu - 2 * lmbda) 0,
    Seg.seg 0 (mu + 2 * lmbda), Seg.pinf (mu + 2 * lmbda)]

/-- Scalar path of `SemicircleDistr.pdf`: inside `[-R, R]` the value
`2/(pi*R*R) * sqrt(R*R - x*x)`; outside, the local `y` is never assigned and
the return raises `UnboundLocalError` (modelled as `none`). -/
def SemicircleDistr.pdf (R x : ℝ) : Option ℝ :=
  if -R ≤ x ∧ x ≤ R then some (2 / (π * R * R) * Real.sqrt (R * R - x * x))
  else none

/-- Vectorized path of `SemicircleDistr.pdf`: `y = zeros_like(x)`,
`y[(-R <= x) & (x <= R)] = 2/(pi*R*R) * sqrt(R*R - x*x)` — the right-hand side
is again computed over the full array `x`, not `x[mask]`. -/
def SemicircleDistr.pdf_vec (R : ℝ) (xs : List ℝ) : Option (List ℝ) :=
  npSetMask (xs.map fun _ => 0)
    (xs.map fun x => if -R ≤ x ∧ x ≤ R then true else false)
    (xs.map fun x => 2 / (π * R * R) * Real.sqrt (R * R - x * x))

/-- Model of `SemicircleDistr.init_piecewise_pdf`: `[-R, -R/2]` with a left pole,
`[-R/2, R/2]`, `[R/2, R]` with a right pole. -/
def SemicircleDistr.init_piecewise_pdf (R : ℝ) : List Seg :=
  [Seg.poleL (-R) (-(R / 2)), Seg.seg (-(R / 2)) (R / 2), Seg.poleR (R / 2) R]

/-- Constructor-time boundary constant of `FDistr`: `Inf` if `df1 < 2`, `1` if
`df1 == 2`, else `0`. -/
def FDistr.pdf_at_0 (df1 : ℝ) : PyV :=
  if df1 < 2 then PyV.inf else if df1 = 2 then PyV.val 1 else PyV.val 0

/-- Model of the `FDistr` log normalizing constant
`df2/2*log(df2) + lgamma((df1+df2)/2) - lgamma(df1/2) - lgamma(df2/2)`. -/
def FDistr.lg_norm (df1 df2 : ℝ) : ℝ :=
  df2 / 2 * Real.log df2 + lgamma ((df1 + df2) / 2) - lgamma (df1 / 2) -
    lgamma (df2 / 2)

/-- The log-domain density computed inline by `FDistr.pdf` for `x > 0`:
`lg_norm + 0.5*(df1*log(df1*x) - (df1+df2)*log(df1*x + df2)) - log(x)`. -/
def FDistr.log_pdf (df1 df2 x : ℝ) : ℝ :=
  FDistr.lg_norm df1 df2 +
    0.5 * (df1 * Real.log (df1 * x) - (df1 + df2) * Real.log (df1 * x + df2)) -
    Real.log x

/-- Scalar path of `FDistr.pdf`: `0` for `x < 0`, the precomputed `pdf_at_0`
at `x == 0`, else `exp` of the inline log-domain density. -/
def FDistr.pdf (df1 df2 x : ℝ) : PyV :=
  if x < 0 then PyV.val 0
  else if x = 0 then FDistr.pdf_at_0 df1
  else PyV.val (Real.exp (FDistr.log_pdf df1 df2 x))

/-- Model of `FDistr.init_piecewise_pdf`: `df1 < 2` gives a left-pole `[0,1]` plus the
tail; `df1 == 2` an ordinary `[0,1]` plus the tail; `df1 > 2` a left-pole
`[0, mode]` with `mode = (df1-2)/df1 * df2/(df2+2)`, then `[mode, mode+1]` and
the tail. -/
def FDistr.init_piecewise_pdf (df1 df2 : ℝ) : List Seg :=
  if df1 < 2 then [Seg.poleL 0 1, Seg.pinf 1]
  else if df1 = 2 then [Seg.seg 0 1, Seg.pinf 1]
  else
    [Seg.poleL 0 ((df1 - 2) / df1 * (df2 / (df2 + 2))),
      Seg.seg ((df1 - 2) / df1 * (df2 / (df2 + 2)))
        ((df1 - 2) / df1 * (df2 / (df2 + 2)) + 1),
      Seg.pinf ((df1 - 2) / df1 * (df2 / (df2 + 2)) + 1)]

/-- Constructor-time boundary constant of `WeibullDistr`: `Inf` if `k < 1`,
`1` if `k == 1`, else `0`. -/
def WeibullDistr.pdf_at_0 (k : ℝ) : PyV :=
  if k < 1 then PyV.inf else if k = 1 then PyV.val 1 else PyV.val 0

/-- Scalar path of `WeibullDistr.pdf`: `0` for `x < 0`, the precomputed
`pdf_at_0` at `x == 0`, else the direct closed-form
`k/lmbda * (x/lmbda)**(k-1) * exp(-(x/lmbda)**k)`. -/
def WeibullDistr.pdf (k lmbda x : ℝ) : PyV :=
  if x < 0 then PyV.val 0
  else if x = 0 then WeibullDistr.pdf_at_0 k
  else
    PyV.val (k / lmbda * (x / lmbda) ^ (k - 1) * Real.exp (-(x / lmbda) ^ k))

/-- Model of `WeibullDistr.init_piecewise_pdf`: for `k <= 1` break points `[0, k, Inf]`
with a left pole at `0`; for `k > 1` break points `[0, mode, Inf]` with
`mode = lmbda*((k-1)/k)**(1/k)`, and a left pole at `0` exactly when `k` is not
an integer (`k != floor(k)`). -/
def WeibullDistr.init_piecewise_pdf (k lmbda : ℝ) : BreaksRepr :=
  if k ≤ 1 then ⟨[((0 : ℝ) : EReal), ((k : ℝ) : EReal), ⊤], [true, false, false]⟩
  else if k = (⌊k⌋ : ℝ) then
    ⟨[((0 : ℝ) : EReal), ((lmbda * ((k - 1) / k) ^ (1 / k) : ℝ) : EReal), ⊤],
      [false, false, false]⟩
  else
    ⟨[((0 : ℝ) : EReal), ((lmbda * ((k - 1) / k) ^ (1 / k) : ℝ) : EReal), ⊤],
      [true, false, false]⟩

/-- For `df = 2` the chi-square log density collapses to `-(x/2) - log 2`. -/
lemma chi2_log_pdf_two (x : ℝ) :
    ChiSquareDistr.log_pdf 2 x = -(x / 2) - Real.log 2 := by
  norm_num [ChiSquareDistr.log_pdf, lgamma, Real.Gamma_one]

/-- The chi-square density with `df = 2` tends to the finite value `1/2` as
`x` approaches `0` from the right. -/
lemma chi2_df_two_tendsto_half :
    Tendsto (fun x => Real.exp (ChiSquareDistr.log_pdf 2 x)) (𝓝[>] (0 : ℝ))
      (𝓝 (1 / 2)) := by
  have hfun : (fun x : ℝ => Real.exp (ChiSquareDistr.log_pdf 2 x)) =
      fun x : ℝ => Real.exp (-(x / 2) - Real.log 2) := by
    funext x; rw [chi2_log_pdf_two]
  rw [hfun]
  have hc : Continuous fun x : ℝ => Real.exp (-(x / 2) - Real.log 2) := by
    continuity
  have h0 : Real.exp (-((0 : ℝ) / 2) - Real.log 2) = 1 / 2 := by
    rw [show -((0 : ℝ) / 2) - Real.log 2 = -Real.log 2 by ring, Real.exp_neg,
      Real.exp_log two_pos]
    norm_num
  rw [← h0]
  exact (hc.tendsto 0).mono_left nhdsWithin_le_nhds

/-- C8.  For chi-square `df < 1`, `init_piecewise_pdf` prints a diagnostic and
builds no segment sequence at all: at `df = 0.5` the model yields `none`
(no representation, and no unsupported-parameter error is raised). -/
theorem C8_chisquare_df_below_one :
    ChiSquareDistr.init_piecewise_pdf (1 / 2) = none := by
  norm_num [ChiSquareDistr.init_piecewise_pdf]

/-- C10.  For every `df` other than `1` and `2` (including non-integer
`0 < df < 2`, which the constructor accepts) the constructor sets
`pdf_at_0 = 0`, so `pdf(0) = 0`; yet for `1 <= df <= 20` the built
representation flags a left pole at `x = 0`. -/
theorem C10_chisquare_pdf_at_0 :
    (∀ df : ℝ, df ≠ 1 → df ≠ 2 →
      ChiSquareDistr.pdf_at_0 df = PyV.val 0 ∧
        ChiSquareDistr.pdf df 0 = PyV.val 0) ∧
    (∀ df : ℝ, 1 ≤ df → df ≤ 20 →
      (ChiSquareDistr.init_piecewise_pdf df).map BreaksRepr.lpoles =
        some [true, false, false, false]) := by
  constructor
  · intro df h1 h2
    constructor
    · simp [ChiSquareDistr.pdf_at_0, h1, h2]
    · simp [ChiSquareDistr.pdf, ChiSquareDistr.pdf_at_0, h1, h2]
  · intro df h1 h2
    rw [ChiSquareDistr.init_piecewise_pdf, if_pos ⟨h1, h2⟩]
    rfl

/-- Witness for C10 at the non-integer shape `df = 3/2`. -/
theorem C10_witness :
    (ChiSquareDistr.pdf_at_0 (3 / 2) = PyV.val 0 ∧
      ChiSquareDistr.pdf (3 / 2) 0 = PyV.val 0) ∧
    (ChiSquareDistr.init_piecewise_pdf (3 / 2)).map BreaksRepr.lpoles =
      some [true, false, false, false] :=
  ⟨C10_chisquare_pdf_at_0.1 (3 / 2) (by norm_num) (by norm_num),
   C10_chisquare_pdf_at_0.2 (3 / 2) (by norm_num) (by norm_num)⟩

/-- C7.  Gamma boundary classification at `x = 0`: pole sentinel `Inf` with a
declared left pole for `k < 1`, the finite constant `1/theta` with no pole for
`k = 1`, and `0` for `k > 1`; in particular `Gamma(1,2)` has density `0.5` at
`0` with no pole flag and `Gamma(0.5,2)` has a declared left pole with the
`Inf` sentinel. -/
theorem C7_gamma_boundary :
    (∀ k theta : ℝ, 0 < k → 0 < theta →
      (k < 1 → GammaDistr.pdf k theta 0 = PyV.inf ∧
        GammaDistr.init_piecewise_pdf k theta = [Seg.poleL 0 1, Seg.pinf 1]) ∧
      (k = 1 → GammaDistr.pdf k theta 0 = PyV.val (1 / theta) ∧
        GammaDistr.init_piecewise_pdf k theta = [Seg.seg 0 1, Seg.pinf 1]) ∧
      (1 < k → GammaDistr.pdf k theta 0 = PyV.val 0)) ∧
    (GammaDistr.pdf 1 2 0 = PyV.val (1 / 2) ∧
      GammaDistr.init_piecewise_pdf 1 2 = [Seg.seg 0 1, Seg.pinf 1]) ∧
    (GammaDistr.pdf (1 / 2) 2 0 = PyV.inf ∧
      GammaDistr.init_piecewise_pdf (1 / 2) 2 = [Seg.poleL 0 1, Seg.pinf 1]) := by
  refine ⟨fun k theta hk htheta => ⟨fun h1 => ?_, fun h1 => ?_, fun h1 => ?_⟩,
    ⟨?_, ?_⟩, ⟨?_, ?_⟩⟩
  · simp [GammaDistr.pdf, GammaDistr.pdf_at_0, GammaDistr.init_piecewise_pdf, h1]
  · subst h1
    norm_num [GammaDistr.pdf, GammaDistr.pdf_at_0, GammaDistr.init_piecewise_pdf]
  · have h2 : ¬k < 1 := not_lt.mpr h1.le
    have h3 : k ≠ 1 := ne_of_gt h1
    simp [GammaDistr.pdf, GammaDistr.pdf_at_0, h2, h3]
  · norm_num [GammaDistr.pdf, GammaDistr.pdf_at_0]
  · norm_num [GammaDistr.init_piecewise_pdf]
  · norm_num [GammaDistr.pdf, GammaDistr.pdf_at_0]
  · norm_num [GammaDistr.init_piecewise_pdf]

/-- Witness for C7 at `Gamma(k=1/2, theta=2)`. -/
theorem C7_witness :
    GammaDistr.pdf (1 / 2) 2 0 = PyV.inf ∧
    GammaDistr.init_piecewise_pdf (1 / 2) 2 = [Seg.poleL 0 1, Seg.pinf 1] :=
  (C7_gamma_boundary.1 (1 / 2) 2 (by norm_num) (by norm_num)).1 (by norm_num)

/-- C9.  For every `x >= 0` the chi-square density with `df = 2` coincides
with the exponential density with rate `1/2`, boundary value `1/2` at `x = 0`
included. -/
theorem C9_chi2_eq_exponential (x : ℝ) (hx : 0 ≤ x) :
    ChiSquareDistr.pdf 2 x = PyV.val (ExponentialDistr.pdf (1 / 2) x) := by
  have hx0 : ¬x < 0 := not_lt.mpr hx
  rcases eq_or_lt_of_le hx with h0 | h0
  · rw [← h0]
    norm_num [ChiSquareDistr.pdf, ChiSquareDistr.pdf_at_0, ExponentialDistr.pdf]
  · have hxne : x ≠ 0 := h0.ne'
    rw [ChiSquareDistr.pdf, if_neg hx0, if_neg hxne, ExponentialDistr.pdf,
      if_neg hx0, chi2_log_pdf_two, Real.exp_sub, Real.exp_log two_pos]
    have : Real.exp (-(x / 2)) / 2 = 1 / 2 * Real.exp (-(1 / 2) * x) := by
      rw [show -(1 / 2 : ℝ) * x = -(x / 2) by ring]; ring
    rw [this]

/-- Witness for C9 at the boundary point `x = 0`. -/
theorem C9_witness :
    ChiSquareDistr.pdf 2 0 = PyV.val (ExponentialDistr.pdf (1 / 2) 0) :=
  C9_chi2_eq_exponential 0 le_rfl

/-- C6.  Break-point policy of the symmetric families: Normal splits at
`mu ± sigma`, Cauchy at `center ± gamma`, Student-t at `±sqrt(df/(df+2))`;
Laplace splits its tails at `mu ± 2*lmbda` but places the interior split at
the hardcoded point `0`, not at the kink `x = mu`: for `lmbda = 1, mu = 5`
the boundaries are `(-inf, 3, 0, 7, +inf)` — not increasing and not split at
`5` as the claim predicts. -/
theorem C6_break_points :
    (∀ mu sigma : ℝ, NormalDistr.init_piecewise_pdf mu sigma =
      [Seg.minf (mu - sigma), Seg.seg (mu - sigma) (mu + sigma),
        Seg.pinf (mu + sigma)]) ∧
    (∀ gamma center : ℝ, CauchyDistr.init_piecewise_pdf gamma center =
      [Seg.minf (center - gamma), Seg.seg (center - gamma) (center + gamma),
        Seg.pinf (center + gamma)]) ∧
    (∀ df : ℝ, StudentTDistr.init_piecewise_pdf df =
      [Seg.minf (-Real.sqrt (df / (df + 2))),
        Seg.seg (-Real.sqrt (df / (df + 2))) (Real.sqrt (df / (df + 2))),
        Seg.pinf (Real.sqrt (df / (df + 2)))]) ∧
    LaplaceDistr.init_piecewise_pdf 1 5 =
      [Seg.minf 3, Seg.seg 3 0, Seg.seg 0 7, Seg.pinf 7] ∧
    LaplaceDistr.init_piecewise_pdf 1 5 ≠
      [Seg.minf 3, Seg.seg 3 5, Seg.seg 5 7, Seg.pinf 7] := by
  refine ⟨fun mu sigma => rfl, fun gamma center => rfl, fun df => rfl, ?_, ?_⟩
  · norm_num [LaplaceDistr.init_piecewise_pdf]
  · norm_num [LaplaceDistr.init_piecewise_pdf]

/-- Counterexample to C1: `BetaDistr` is one of the listed hazard families,
yet exactly at the support boundary `x = 0` with `alpha = beta = 1/2` its
`pdf` evaluates the closed-form formula (raising on `0 ** (-1/2)`, modelled
as `none`) instead of returning any precomputed boundary-limit constant. -/
theorem C1_counterexample : BetaDistr.pdf (1 / 2) (1 / 2) 0 = none := by
  norm_num [BetaDistr.pdf, pyPow]

/-- C1 (amended).  Chi-square, Gamma and F compute the density as
`exp(log_pdf(x))` strictly inside the open support and return the precomputed
`pdf_at_0` exactly at `x = 0`; Weibull also returns `pdf_at_0` at `x = 0` and
its interior value equals the exponential of a log-domain expression; Beta,
however, evaluates its closed-form power formula on the whole closed support
including the boundaries (no precomputed constant; at a boundary with a shape
parameter below `1` the evaluation raises). -/
theorem C1_log_domain_boundary :
    (∀ df x : ℝ, 0 < x →
      ChiSquareDistr.pdf df x =
        PyV.val (Real.exp (ChiSquareDistr.log_pdf df x))) ∧
    (∀ df : ℝ, ChiSquareDistr.pdf df 0 = ChiSquareDistr.pdf_at_0 df) ∧
    (∀ k theta x : ℝ, 0 < x →
      GammaDistr.pdf k theta x =
        PyV.val (Real.exp (GammaDistr.log_pdf k theta x))) ∧
    (∀ k theta : ℝ, GammaDistr.pdf k theta 0 = GammaDistr.pdf_at_0 k theta) ∧
    (∀ df1 df2 x : ℝ, 0 < x →
      FDistr.pdf df1 df2 x = PyV.val (Real.exp (FDistr.log_pdf df1 df2 x))) ∧
    (∀ df1 df2 : ℝ, FDistr.pdf df1 df2 0 = FDistr.pdf_at_0 df1) ∧
    (∀ k lmbda x : ℝ, 0 < k → 0 < lmbda → 0 < x →
      WeibullDistr.pdf k lmbda x =
        PyV.val (Real.exp (Real.log (k / lmbda) +
          (k - 1) * Real.log (x / lmbda) - (x / lmbda) ^ k))) ∧
    (∀ k lmbda : ℝ, WeibullDistr.pdf k lmbda 0 = WeibullDistr.pdf_at_0 k) ∧
    (∀ alpha beta : ℝ, alpha < 1 → BetaDistr.pdf alpha beta 0 = none) := by
  refine ⟨fun df x hx => ?_, fun df => ?_, fun k theta x hx => ?_, fun k theta => ?_,
    fun df1 df2 x hx => ?_, fun df1 df2 => ?_, fun k lmbda x hk hl hx => ?_,
    fun k lmbda => ?_, fun alpha beta ha => ?_⟩
  · rw [ChiSquareDistr.pdf, if_neg (not_lt.mpr hx.le), if_neg hx.ne']
  · rw [ChiSquareDistr.pdf, if_neg (lt_irrefl 0), if_pos rfl]
  · rw [GammaDistr.pdf, if_neg (not_lt.mpr hx.le), if_neg hx.ne']
  · rw [GammaDistr.pdf, if_neg (lt_irrefl 0), if_pos rfl]
  · rw [FDistr.pdf, if_neg (not_lt.mpr hx.le), if_neg hx.ne']
  · rw [FDistr.pdf, if_neg (lt_irrefl 0), if_pos rfl]
  · rw [WeibullDistr.pdf, if_neg (not_lt.mpr hx.le), if_neg hx.ne']
    have hxl : 0 < x / lmbda := div_pos hx hl
    have hkl : 0 < k / lmbda := div_pos hk hl
    congr 1
    rw [Real.exp_sub, Real.exp_add, Real.exp_log hkl,
      mul_comm (k - 1) (Real.log (x / lmbda)), ← Real.rpow_def_of_pos hxl,
      Real.exp_neg, div_eq_mul_inv]
    ring
  · rw [WeibullDistr.pdf, if_neg (lt_irrefl 0), if_pos rfl]
  · have h1 : ¬((0 : ℝ) < 0 ∨ (1 : ℝ) < 0) := by norm_num
    rw [BetaDistr.pdf, if_neg h1, pyPow, if_pos ⟨rfl, by linarith⟩]
    rfl

/-- Witness for C1: the Chi-square interior rule at `df = 1, x = 1`, the
Weibull interior rule at `k = 3, lmbda = 1, x = 2`, and the Beta boundary
raise at `alpha = 1/2, beta = 3/4`. -/
theorem C1_witness :
    ChiSquareDistr.pdf 1 1 = PyV.val (Real.exp (ChiSquareDistr.log_pdf 1 1)) ∧
    WeibullDistr.pdf 3 1 2 =
      PyV.val (Real.exp (Real.log ((3 : ℝ) / 1) +
        ((3 : ℝ) - 1) * Real.log ((2 : ℝ) / 1) - ((2 : ℝ) / 1) ^ (3 : ℝ))) ∧
    BetaDistr.pdf (1 / 2) (3 / 4) 0 = none :=
  ⟨C1_log_domain_boundary.1 1 1 (by norm_num),
   C1_log_domain_boundary.2.2.2.2.2.2.1 3 1 2 (by norm_num) (by norm_num)
     (by norm_num),
   C1_log_domain_boundary.2.2.2.2.2.2.2.2 (1 / 2) (3 / 4) (by norm_num)⟩

/-- C2.  The vectorized path of `ExponentialDistr.pdf` applies the density
formula to the full input array but assigns it to the masked slots only, so a
batch mixing in- and out-of-support points raises `ValueError` (modelled
`none`) while the scalar path returns a value at the same sample point; an
all-nonnegative batch agrees with the scalar path, as does `GammaDistr`'s
vectorized path (which indexes `x[mask]`) on every batch. -/
theorem C2_batch_scalar_divergence :
    ExponentialDistr.pdf_vec 1 [1, -1] = none ∧
    ExponentialDistr.pdf 1 1 = Real.exp (-1) ∧
    ExponentialDistr.pdf_vec 1 [0, 1] =
      some [ExponentialDistr.pdf 1 0, ExponentialDistr.pdf 1 1] ∧
    GammaDistr.pdf_vec 1 2 [-1, 0, 1] =
      some [GammaDistr.pdf 1 2 (-1), GammaDistr.pdf 1 2 0,
        GammaDistr.pdf 1 2 1] := by
  refine ⟨?_, ?_, ?_, ?_⟩
  · norm_num [ExponentialDistr.pdf_vec, npSetMask, countTrue, List.filter]
  · norm_num [ExponentialDistr.pdf]
  · norm_num [ExponentialDistr.pdf_vec, ExponentialDistr.pdf, npSetMask,
      countTrue, assignMask, List.filter]
  · norm_num [GammaDistr.pdf_vec, GammaDistr.pdf, GammaDistr.pdf_at_0,
      npSetMask, countTrue, assignMask, fillMask, List.filter]

/-- C3.  `SemicircleDistr.pdf` on a scalar outside the support raises
`UnboundLocalError` (the local `y` is never assigned; modelled `none`)
instead of returning `0`; the vectorized path on the singleton batch `[2]`
does return `[0]`, and on the mixed batch `[0, 2]` raises `ValueError`. -/
theorem C3_semicircle_raises :
    SemicircleDistr.pdf 1 2 = none ∧
    SemicircleDistr.pdf_vec 1 [2] = some [0] ∧
    SemicircleDistr.pdf_vec 1 [0, 2] = none := by
  refine ⟨?_, ?_, ?_⟩
  · norm_num [SemicircleDistr.pdf]
  · norm_num [SemicircleDistr.pdf_vec, npSetMask, countTrue, fillMask,
      List.filter]
  · norm_num [SemicircleDistr.pdf_vec, npSetMask, countTrue, List.filter]

/-- Counterexample to C4: the chi-square built representation for `df = 2`
flags a left pole at the boundary `0`, yet the density on the open support
(`exp(log_pdf)` there, eventually near `0+`) tends to the finite value `1/2`
and does not diverge to `+Infinity`. -/
theorem C4_counterexample :
    (ChiSquareDistr.init_piecewise_pdf 2).map BreaksRepr.lpoles =
      some [true, false, false, false] ∧
    (∀ᶠ x in 𝓝[>] (0 : ℝ),
      ChiSquareDistr.pdf 2 x =
        PyV.val (Real.exp (ChiSquareDistr.log_pdf 2 x))) ∧
    Tendsto (fun x => Real.exp (ChiSquareDistr.log_pdf 2 x)) (𝓝[>] (0 : ℝ))
      (𝓝 (1 / 2)) ∧
    ¬Tendsto (fun x => Real.exp (ChiSquareDistr.log_pdf 2 x)) (𝓝[>] (0 : ℝ))
      atTop := by
  refine ⟨?_, ?_, chi2_df_two_tendsto_half,
    not_tendsto_atTop_of_tendsto_nhds chi2_df_two_tendsto_half⟩
  · rw [ChiSquareDistr.init_piecewise_pdf, if_pos (by norm_num)]
    rfl
  · filter_upwards [eventually_mem_nhdsWithin] with x hx
    rw [ChiSquareDistr.pdf, if_neg (not_lt.mpr (le_of_lt hx)), if_neg (ne_of_gt hx)]

/-- C4 (amended).  A boundary without a pole flag carries the precomputed
finite-or-zero limit as the exact density value there (`F` with `df1 = 2`,
integer-shape Weibull with `k > 1`); a pole flag, however, does not imply
divergence: chi-square flags a left pole at `0` for every `1 <= df <= 20`,
although for `df = 2` the density tends to the finite value `1/2` there. -/
theorem C4_pole_flags :
    (∀ df2 : ℝ, FDistr.init_piecewise_pdf 2 df2 = [Seg.seg 0 1, Seg.pinf 1] ∧
      FDistr.pdf 2 df2 0 = PyV.val 1) ∧
    (∀ k lmbda : ℝ, 1 < k → k = (⌊k⌋ : ℝ) →
      (WeibullDistr.init_piecewise_pdf k lmbda).lpoles = [false, false, false] ∧
      WeibullDistr.pdf k lmbda 0 = PyV.val 0) ∧
    (∀ df : ℝ, 1 ≤ df → df ≤ 20 →
      (ChiSquareDistr.init_piecewise_pdf df).map BreaksRepr.lpoles =
        some [true, false, false, false]) ∧
    Tendsto (fun x => Real.exp (ChiSquareDistr.log_pdf 2 x)) (𝓝[>] (0 : ℝ))
      (𝓝 (1 / 2)) := by
  refine ⟨fun df2 => ⟨?_, ?_⟩, fun k lmbda h1 h2 => ⟨?_, ?_⟩,
    fun df ha hb => ?_, chi2_df_two_tendsto_half⟩
  · norm_num [FDistr.init_piecewise_pdf]
  · norm_num [FDistr.pdf, FDistr.pdf_at_0]
  · rw [WeibullDistr.init_piecewise_pdf, if_neg (not_le.mpr h1), if_pos h2]
  · have hk1 : ¬k < 1 := by linarith
    have hk2 : k ≠ 1 := by linarith
    simp [WeibullDistr.pdf, WeibullDistr.pdf_at_0, hk1, hk2]
  · rw [ChiSquareDistr.init_piecewise_pdf, if_pos ⟨ha, hb⟩]
    rfl

/-- Witness for C4 at `F(2,3)`, `Weibull(3,1)` and chi-square `df = 2`. -/
theorem C4_witness :
    (FDistr.init_piecewise_pdf 2 3 = [Seg.seg 0 1, Seg.pinf 1] ∧
      FDistr.pdf 2 3 0 = PyV.val 1) ∧
    ((WeibullDistr.init_piecewise_pdf 3 1).lpoles = [false, false, false] ∧
      WeibullDistr.pdf 3 1 0 = PyV.val 0) ∧
    (ChiSquareDistr.init_piecewise_pdf 2).map BreaksRepr.lpoles =
      some [true, false, false, false] :=
  ⟨C4_pole_flags.1 3,
   C4_pole_flags.2.1 3 1 (by norm_num) (by norm_num),
   C4_pole_flags.2.2.1 2 (by norm_num) (by norm_num)⟩

/-- C5.  The Laplace evaluator multiplies the correct normalizing constant
`0.5/lmbda` by `exp(-|x - mu|)` whose exponent is not divided by `lmbda`, so
at `lmbda = 2, mu = 0` the density integrates to `1/2`, not `1`. -/
theorem C5_laplace_integral :
    (∫ x : ℝ, LaplaceDistr.pdf 2 0 x) = 1 / 2 ∧ (1 : ℝ) / 2 ≠ 1 := by
  constructor
  · have h1 : (∫ x : ℝ, LaplaceDistr.pdf 2 0 x) =
        ∫ x : ℝ, (1 / 4 : ℝ) * Real.exp (-|x|) := by
      congr 1
      funext x
      rw [LaplaceDistr.pdf, sub_zero]
      norm_num
    rw [h1, integral_mul_left,
      show (∫ x : ℝ, Real.exp (-|x|)) =
          2 * ∫ x : ℝ in Ioi (0 : ℝ), Real.exp (-x) from
        @integral_comp_abs fun x => Real.exp (-x),
      integral_exp_neg_Ioi_zero]
    norm_num
  · norm_num
